import Mathlib

/-!
Verification of the repack `ChunksToHermesBytecodePlugin`.

A shallow embedding of
`src/packages/repack/src/webpack/plugins/ChunksToHermesBytecodePlugin/ChunksToHermesBytecodePlugin.ts`
and proofs about it.

The plugin post-processes emitted webpack assets: for every asset matching the
configured rule it resolves the on-disk bundle path, checks the bundle exists,
relocates an existing source map to a transient packager-map path, transforms
the bundle to Hermes bytecode, and, when maps were present, composes the
packager map with the compiler map into the final source-map file.

The embedding mirrors the TypeScript source:
* `dirname`, `basename`, `join` model the Node POSIX path functions on the
  inputs the plugin feeds them (no dot-dot normalization, no
  trailing-separator inputs);
* `PluginConfig` models `ChunksToHermesBytecodePluginConfig`, keeping the
  fields the pipeline reads; JavaScript truthiness of the optional string
  fields is modelled by `truthy`;
* `bundleOutputPath`, `sourcemapOutputPath`, `packagerMapPath` are the
  per-asset path computations of the `afterEmit` callback (lines 163 to 191);
* `processAsset` is the per-asset pipeline as a trace of observable events,
  and `run` is the whole `apply` / `afterEmit` orchestration;
* `applyEvent` interprets events as filesystem effects; the effects of the
  transform and compose steps live in `./utils`, which is not among the
  sources at hand, and are modelled from the spec.
-/

namespace Repack

/-- Split a character list on the slash character; `acc` holds the current
segment reversed. -/
def splitSlashAux : List Char → List Char → List String
  | [], acc => [String.mk acc.reverse]
  | c :: cs, acc =>
    if c = '/' then String.mk acc.reverse :: splitSlashAux cs []
    else splitSlashAux cs (c :: acc)

/-- Split a POSIX path into its slash-separated segments. -/
def splitSlash (p : String) : List String := splitSlashAux p.toList []

/-- Node `path.dirname` for POSIX paths: everything before the last separator,
a dot when there is none, the root for a file directly under the root. -/
def dirname (p : String) : String :=
  match splitSlash p with
  | [] => "."
  | [_] => "."
  | parts =>
    let d := String.intercalate "/" parts.dropLast
    if d.isEmpty then "/" else d

/-- Node `path.basename` for POSIX paths: the segment after the last
separator. -/
def basename (p : String) : String := (splitSlash p).getLastD ""

/-- Node `path.join` restricted to the two-argument, already-normalized case
the plugin uses: concatenation with a single separator. -/
def join (a b : String) : String :=
  if a.isEmpty then b
  else if b.isEmpty then a
  else if a.toList.getLast? = some '/' then a ++ b
  else a ++ "/" ++ b

/-- An emitted webpack asset: its `name` and the value of
`compilation.getPath` at that name, its logical output path. -/
structure Asset where
  name : String
  assetPath : String
deriving DecidableEq, Repr

/-- The fields of `ChunksToHermesBytecodePluginConfig` the pipeline reads.
The match rules `test`, `include`, `exclude` and the compiler location
`hermesCLIPath` / `reactNativePath` are external collaborators and stay
abstract. -/
structure PluginConfig where
  enabled : Bool
  platform : String
  bundleFilename : Option String
  sourceMapFilename : Option String
  assetsPath : Option String
deriving DecidableEq, Repr

/-- JavaScript truthiness of an optional string: an absent value and the empty
string are falsy, every other string is truthy. -/
def truthy : Option String → Option String
  | none => none
  | some s => if s.isEmpty then none else some s

/-- The main-entry bundle name. The source compares asset names against the
literal string `index.bundle` at line 163; the name is fixed, not read from
the configuration. -/
def mainBundleName : String := "index.bundle"

/-- Line 163: `isMainBundle` is whether `asset.name` equals the literal
string `index.bundle`. -/
def isMainBundle (assetName : String) : Bool := assetName == "index.bundle"

/-- Line 129: `bundleOutputDir` is `path.dirname` of `bundleFilename`. -/
def bundleOutputDir (bundleFilename : String) : String := dirname bundleFilename

/-- Line 132: `assetsOutputDir` is `assetsPath` when truthy, else
`bundleOutputDir`. The argument `bf` is the non-empty `bundleFilename`
established by `apply`. -/
def assetsOutputDir (cfg : PluginConfig) (bf : String) : String :=
  match truthy cfg.assetsPath with
  | some ap => ap
  | none => bundleOutputDir bf

/-- Lines 135 to 137: `sourcemapOutputDir` is `path.dirname` of
`sourceMapFilename` when that is truthy, else `bundleOutputDir`. -/
def sourcemapOutputDir (cfg : PluginConfig) (bf : String) : String :=
  match truthy cfg.sourceMapFilename with
  | some smf => dirname smf
  | none => bundleOutputDir bf

/-- Lines 165 to 170: `bundleOutputPath` is `bundleFilename` for the main
bundle, else `path.join` of either `assetsOutputDir` (platform ios) or
`bundleOutputDir` (any other platform) with the asset path. -/
def bundleOutputPath (cfg : PluginConfig) (bf : String) (a : Asset) : String :=
  if isMainBundle a.name then bf
  else
    join (if cfg.platform == "ios" then assetsOutputDir cfg bf else bundleOutputDir bf)
      a.assetPath

/-- Lines 180 to 186: `sourcemapOutputPath` is `bundleOutputPath` with the
map extension appended when the asset is not the main bundle and the platform
is ios, else `path.join` of `sourcemapOutputDir` with the basename of
`bundleOutputPath` plus the map extension. -/
def sourcemapOutputPath (cfg : PluginConfig) (bf : String) (a : Asset) : String :=
  if !isMainBundle a.name && cfg.platform == "ios" then
    bundleOutputPath cfg bf a ++ ".map"
  else
    join (sourcemapOutputDir cfg bf) (basename (bundleOutputPath cfg bf a) ++ ".map")

/-- Lines 188 to 191: `packagerMapPath` is `path.join` of
`sourcemapOutputDir` with the basename of `bundleOutputPath` plus the
packager-map extension, for every platform and role. -/
def packagerMapPath (cfg : PluginConfig) (bf : String) (a : Asset) : String :=
  join (sourcemapOutputDir cfg bf) (basename (bundleOutputPath cfg bf a) ++ ".packager.map")

/-- Observable steps of one asset pipeline, in execution order. -/
inductive Event where
  /-- Lines 172 to 178: the bundle file is missing, an error is logged and the
  asset is skipped. -/
  | skipMissingBundle (bundlePath : String)
  /-- Line 195: `fs.rename` from `sourcemapOutputPath` to `packagerMapPath`. -/
  | renameMap (src dst : String)
  /-- Lines 197 to 199: no source maps were found, an informational message is
  logged. -/
  | logNoSourceMaps
  /-- Lines 202 to 206: `transformBundleToHermesBytecode` invoked on
  `filePath`; `compilerMap` is the reported `hermesAsset.sourceMap`, present
  iff `useSourceMaps` was requested. -/
  | transform (filePath : String) (compilerMap : Option String)
  /-- Lines 210 to 215: `composeSourceMaps` invoked with the packager map,
  the compiler map, and `outputFile` set to `sourcemapOutputPath`. -/
  | compose (packagerMap compilerMap outputFile : String)
deriving DecidableEq, Repr

/-- One asset pipeline, the body of the map at lines 147 to 218, as the list
of events it performs. `fileExistsAt` is the `fileExists` primitive observed
at the moment of each check; `compilerMapOf` abstracts the compiler-map path
the transform step reports for a given bundle path. -/
def processAsset (cfg : PluginConfig) (bf : String) (a : Asset)
    (fileExistsAt : String → Bool) (compilerMapOf : String → String) : List Event :=
  let bPath := bundleOutputPath cfg bf a
  if !fileExistsAt bPath then
    [Event.skipMissingBundle bPath]
  else
    let smPath := sourcemapOutputPath cfg bf a
    let pmPath := packagerMapPath cfg bf a
    let useSourceMaps := fileExistsAt smPath
    (if useSourceMaps then [Event.renameMap smPath pmPath] else [Event.logNoSourceMaps])
      ++ [Event.transform bPath (if useSourceMaps then some (compilerMapOf bPath) else none)]
      ++ (if useSourceMaps then [Event.compose pmPath (compilerMapOf bPath) smPath] else [])

/-- The traces of all matching assets, in asset order: lines 141 to 218 filter
the compilation assets by the match rule and map each to its pipeline. -/
def runTraces (cfg : PluginConfig) (bf : String) (assets : List Asset)
    (pred : String → Bool) (fileExistsAt : String → Bool)
    (compilerMapOf : String → String) : List (String × List Event) :=
  (assets.filter fun a => pred a.name).map fun a =>
    (a.name, processAsset cfg bf a fileExistsAt compilerMapOf)

/-- Outcome of `apply` together with the `afterEmit` work it registers. -/
inductive RunResult where
  /-- Lines 97 to 100: the plugin is disabled, an informational message is
  logged and `apply` returns at once; nothing else happens. -/
  | disabledNoOp
  /-- Lines 110 to 121: `bundleFilename` is falsy, an error is thrown before
  the `afterEmit` hook is registered, hence before any asset is touched. -/
  | configurationError
  /-- The per-asset pipelines that ran. -/
  | ran (traces : List (String × List Event))
deriving DecidableEq, Repr

/-- The whole of `apply` plus the registered `afterEmit` callback, lines 96
to 221: the disabled check first, then the `bundleFilename` check, then the
per-asset pipelines over the filtered assets. -/
def run (cfg : PluginConfig) (assets : List Asset) (pred : String → Bool)
    (fileExistsAt : String → Bool) (compilerMapOf : String → String) : RunResult :=
  if !cfg.enabled then RunResult.disabledNoOp
  else
    match truthy cfg.bundleFilename with
    | none => RunResult.configurationError
    | some bf => RunResult.ran (runTraces cfg bf assets pred fileExistsAt compilerMapOf)

/-- The filesystem effect of one event, on a filesystem modelled by its
existence predicate. `renameMap` is `fs.rename`: the source stops existing
and the destination starts existing. The transform and compose steps live in
`./utils`, outside the sources at hand, so their effects are modelled from
the spec: the transform writes the bytecode in place over `filePath` and
writes the compiler map when one was requested (spec 4.2), and the compose
step writes the composed map to `outputFile` and consumes its packager-map
input, which must not remain on disk after successful composition (spec 4.3
and the invariant of spec 3). -/
def applyEvent (fs : String → Bool) : Event → (String → Bool)
  | Event.skipMissingBundle _ => fs
  | Event.logNoSourceMaps => fs
  | Event.renameMap src dst => fun p =>
      if p = dst then true else if p = src then false else fs p
  | Event.transform filePath compilerMap => fun p =>
      if some p = compilerMap then true else if p = filePath then true else fs p
  | Event.compose packagerMap _ outputFile => fun p =>
      if p = packagerMap then false else if p = outputFile then true else fs p

/-- The filesystem after a trace of events. -/
def applyEvents (fs : String → Bool) (es : List Event) : String → Bool :=
  es.foldl applyEvent fs

/-! Sample data used by the witnesses. -/

/-- An android run configured with a bundle output path only. -/
def cfgAndroid : PluginConfig :=
  ⟨true, "android", some "/out/index.bundle", none, none⟩

/-- An ios run with explicit source-map and assets output paths. -/
def cfgIos : PluginConfig :=
  ⟨true, "ios", some "/out/main.jsbundle", some "/maps/main.jsbundle.map", some "/assets"⟩

/-- An enabled run with no bundle output path configured. -/
def cfgNoBundle : PluginConfig := ⟨true, "android", none, none, none⟩

/-- A disabled run with a bundle output path configured. -/
def cfgDisabled : PluginConfig := ⟨false, "ios", some "/out/main.jsbundle", none, none⟩

/-- A disabled run with no bundle output path configured. -/
def cfgDisabledNoBundle : PluginConfig := ⟨false, "android", none, none, none⟩

/-- The main-entry asset. -/
def mainAsset : Asset := ⟨"index.bundle", "index.bundle"⟩

/-- A secondary chunk asset. -/
def chunkAsset : Asset := ⟨"chunk1.bundle", "chunk1.bundle"⟩

/-- A secondary chunk asset whose bundle file is absent in the sample
filesystems. -/
def missingAsset : Asset := ⟨"chunk2.bundle", "chunk2.bundle"⟩

/-- A filesystem for the ios sample: the chunk bundle and its map exist under
the assets directory. -/
def fsIosDemo : String → Bool :=
  fun p => p == "/assets/chunk1.bundle" || p == "/assets/chunk1.bundle.map"

/-- A filesystem for the android sample: the chunk bundle and its map exist
in the bundle output directory. -/
def fsAndroidDemo : String → Bool :=
  fun p => p == "/out/chunk1.bundle" || p == "/out/chunk1.bundle.map"

/-- A stand-in for the compiler-map path reported by the transform step. -/
def cmDemo : String → String := fun p => p ++ ".hbc.map"

/-- A match rule accepting every asset name. -/
def predAll : String → Bool := fun _ => true

end Repack

namespace Repack

/-- Claim C1: an asset is treated as the main bundle iff its name equals the
main-entry bundle name, the literal `index.bundle`; every other asset is
secondary. -/
theorem isMainBundle_iff_eq_mainBundleName (assetName : String) :
    isMainBundle assetName = true ↔ assetName = mainBundleName := by
  simp [isMainBundle, mainBundleName]

/-- Claim C2: the resolved bundle path is the configured bundle output path
for the main bundle, independent of the platform; for a secondary bundle it
is the join of `assetsOutputDir` with the asset path on ios and the join of
`bundleOutputDir` with the asset path on any other platform. -/
theorem bundleOutputPath_resolution (cfg : PluginConfig) (bf : String) (a : Asset) :
    (isMainBundle a.name = true → bundleOutputPath cfg bf a = bf)
    ∧ (isMainBundle a.name = false → cfg.platform = "ios" →
        bundleOutputPath cfg bf a = join (assetsOutputDir cfg bf) a.assetPath)
    ∧ (isMainBundle a.name = false → cfg.platform ≠ "ios" →
        bundleOutputPath cfg bf a = join (bundleOutputDir bf) a.assetPath) := by
  refine ⟨fun h => ?_, fun h hp => ?_, fun h hp => ?_⟩
  · simp [bundleOutputPath, h]
  · simp [bundleOutputPath, h, hp]
  · simp [bundleOutputPath, h, hp]

/-- Witness for claim C2, covering all three branches: the main asset on
android resolves to the configured path, the chunk asset on ios resolves into
the assets directory, and the chunk asset on android resolves into the bundle
output directory. -/
theorem bundleOutputPath_resolution_witness :
    bundleOutputPath cfgAndroid "/out/index.bundle" mainAsset = "/out/index.bundle"
    ∧ bundleOutputPath cfgIos "/out/main.jsbundle" chunkAsset = "/assets/chunk1.bundle"
    ∧ bundleOutputPath cfgAndroid "/out/index.bundle" chunkAsset = "/out/chunk1.bundle" :=
  ⟨(bundleOutputPath_resolution cfgAndroid "/out/index.bundle" mainAsset).1 (by decide),
   ((bundleOutputPath_resolution cfgIos "/out/main.jsbundle" chunkAsset).2.1
      (by decide) (by decide)).trans (by decide),
   ((bundleOutputPath_resolution cfgAndroid "/out/index.bundle" chunkAsset).2.2
      (by decide) (by decide)).trans (by decide)⟩

/-- Claim C3: the resolved source-map path is the bundle path with the map
extension appended exactly when the asset is secondary and the platform is
ios; for every other platform and role combination it is the join of
`sourcemapOutputDir` with the basename of the bundle path plus the map
extension. -/
theorem sourcemapOutputPath_resolution (cfg : PluginConfig) (bf : String) (a : Asset) :
    (isMainBundle a.name = false → cfg.platform = "ios" →
      sourcemapOutputPath cfg bf a = bundleOutputPath cfg bf a ++ ".map")
    ∧ (isMainBundle a.name = true ∨ cfg.platform ≠ "ios" →
      sourcemapOutputPath cfg bf a
        = join (sourcemapOutputDir cfg bf) (basename (bundleOutputPath cfg bf a) ++ ".map")) := by
  constructor
  · intro h hp
    simp [sourcemapOutputPath, h, hp]
  · rintro (h | h) <;> simp [sourcemapOutputPath, h]

/-- Witness for claim C3: the chunk asset on ios gets a co-located map path,
while the chunk asset on android and the main asset on ios get map paths in
the source-map output directory. -/
theorem sourcemapOutputPath_resolution_witness :
    sourcemapOutputPath cfgIos "/out/main.jsbundle" chunkAsset = "/assets/chunk1.bundle.map"
    ∧ sourcemapOutputPath cfgAndroid "/out/index.bundle" chunkAsset = "/out/chunk1.bundle.map"
    ∧ sourcemapOutputPath cfgIos "/out/main.jsbundle" mainAsset = "/maps/main.jsbundle.map" :=
  ⟨((sourcemapOutputPath_resolution cfgIos "/out/main.jsbundle" chunkAsset).1
      (by decide) (by decide)).trans (by decide),
   ((sourcemapOutputPath_resolution cfgAndroid "/out/index.bundle" chunkAsset).2
      (Or.inr (by decide))).trans (by decide),
   ((sourcemapOutputPath_resolution cfgIos "/out/main.jsbundle" mainAsset).2
      (Or.inl (by decide))).trans (by decide)⟩

/-- Claim C4: with no source-map output path configured, `sourcemapOutputDir`
is the directory containing the configured bundle output path; with no assets
output path configured, `assetsOutputDir` is that same directory. -/
theorem outputDir_defaults (cfg : PluginConfig) (bf : String) :
    (cfg.sourceMapFilename = none → sourcemapOutputDir cfg bf = dirname bf)
    ∧ (cfg.assetsPath = none → assetsOutputDir cfg bf = dirname bf) := by
  constructor
  · intro h
    simp [sourcemapOutputDir, truthy, h, bundleOutputDir]
  · intro h
    simp [assetsOutputDir, truthy, h, bundleOutputDir]

/-- Witness for claim C4 on the android sample configuration, which sets
neither optional path: both directories default to the directory of the
configured bundle output path. -/
theorem outputDir_defaults_witness :
    (sourcemapOutputDir cfgAndroid "/out/index.bundle" = "/out")
    ∧ (assetsOutputDir cfgAndroid "/out/index.bundle" = "/out") :=
  ⟨((outputDir_defaults cfgAndroid "/out/index.bundle").1 (by decide)).trans (by decide),
   ((outputDir_defaults cfgAndroid "/out/index.bundle").2 (by decide)).trans (by decide)⟩

/-- Claim C5: for an asset whose bundle file exists, when a source map exists
at the resolved source-map path the pipeline renames it to the packager-map
path, transforms with a compiler map requested, and composes the packager map
with the compiler map into the resolved source-map path; when no source map
exists the pipeline logs that maps are unavailable and transforms with no map
requested, and no compose step runs. -/
theorem processAsset_sourcemap_handling (cfg : PluginConfig) (bf : String) (a : Asset)
    (fileExistsAt : String → Bool) (compilerMapOf : String → String)
    (hb : fileExistsAt (bundleOutputPath cfg bf a) = true) :
    (fileExistsAt (sourcemapOutputPath cfg bf a) = true →
      processAsset cfg bf a fileExistsAt compilerMapOf
        = [Event.renameMap (sourcemapOutputPath cfg bf a) (packagerMapPath cfg bf a),
           Event.transform (bundleOutputPath cfg bf a)
             (some (compilerMapOf (bundleOutputPath cfg bf a))),
           Event.compose (packagerMapPath cfg bf a)
             (compilerMapOf (bundleOutputPath cfg bf a)) (sourcemapOutputPath cfg bf a)])
    ∧ (fileExistsAt (sourcemapOutputPath cfg bf a) = false →
      processAsset cfg bf a fileExistsAt compilerMapOf
        = [Event.logNoSourceMaps,
           Event.transform (bundleOutputPath cfg bf a) none]) := by
  constructor <;> intro hm <;> simp [processAsset, hb, hm]

/-- Witness for claim C5 on the ios sample: the chunk bundle and its map both
exist, and the trace is exactly rename, transform with map, compose into the
resolved source-map path. -/
theorem processAsset_sourcemap_handling_witness :
    fsIosDemo (bundleOutputPath cfgIos "/out/main.jsbundle" chunkAsset) = true
    ∧ fsIosDemo (sourcemapOutputPath cfgIos "/out/main.jsbundle" chunkAsset) = true
    ∧ processAsset cfgIos "/out/main.jsbundle" chunkAsset fsIosDemo cmDemo
        = [Event.renameMap "/assets/chunk1.bundle.map" "/maps/chunk1.bundle.packager.map",
           Event.transform "/assets/chunk1.bundle" (some "/assets/chunk1.bundle.hbc.map"),
           Event.compose "/maps/chunk1.bundle.packager.map" "/assets/chunk1.bundle.hbc.map"
             "/assets/chunk1.bundle.map"] :=
  ⟨by decide, by decide,
   ((processAsset_sourcemap_handling cfgIos "/out/main.jsbundle" chunkAsset fsIosDemo cmDemo
      (by decide)).1 (by decide)).trans (by decide)⟩

/-- Claim C6: with the pipeline enabled but no bundle output path configured,
the run is the fatal configuration error, with no per-asset step executed for
any asset. -/
theorem run_missing_bundleFilename_fatal (cfg : PluginConfig) (assets : List Asset)
    (pred : String → Bool) (fileExistsAt : String → Bool) (compilerMapOf : String → String)
    (he : cfg.enabled = true) (hb : cfg.bundleFilename = none) :
    run cfg assets pred fileExistsAt compilerMapOf = RunResult.configurationError := by
  simp [run, he, hb, truthy]

/-- Witness for claim C6 on the enabled, bundle-less sample configuration. -/
theorem run_missing_bundleFilename_fatal_witness :
    cfgNoBundle.enabled = true ∧ cfgNoBundle.bundleFilename = none
    ∧ run cfgNoBundle [mainAsset, chunkAsset] predAll fsAndroidDemo cmDemo
        = RunResult.configurationError :=
  ⟨by decide, by decide,
   run_missing_bundleFilename_fatal cfgNoBundle [mainAsset, chunkAsset] predAll
     fsAndroidDemo cmDemo (by decide) (by decide)⟩

/-- Claim C7: with the pipeline disabled, the run is the informational no-op:
no error and no asset processing, whatever the assets, match rule and
filesystem. -/
theorem run_disabled_noop (cfg : PluginConfig) (assets : List Asset)
    (pred : String → Bool) (fileExistsAt : String → Bool) (compilerMapOf : String → String)
    (he : cfg.enabled = false) :
    run cfg assets pred fileExistsAt compilerMapOf = RunResult.disabledNoOp := by
  simp [run, he]

/-- Witness for claim C7 on the disabled sample configuration. -/
theorem run_disabled_noop_witness :
    cfgDisabled.enabled = false
    ∧ run cfgDisabled [mainAsset, chunkAsset] predAll fsIosDemo cmDemo
        = RunResult.disabledNoOp :=
  ⟨by decide,
   run_disabled_noop cfgDisabled [mainAsset, chunkAsset] predAll fsIosDemo cmDemo (by decide)⟩

/-- Claim C10: the disabled check precedes configuration validation: a
disabled run returns the no-op and raises no configuration error even when
the bundle output path is missing. -/
theorem run_disabled_before_config_check (cfg : PluginConfig) (assets : List Asset)
    (pred : String → Bool) (fileExistsAt : String → Bool) (compilerMapOf : String → String)
    (he : cfg.enabled = false) (_hb : cfg.bundleFilename = none) :
    run cfg assets pred fileExistsAt compilerMapOf = RunResult.disabledNoOp
    ∧ run cfg assets pred fileExistsAt compilerMapOf ≠ RunResult.configurationError := by
  have h : run cfg assets pred fileExistsAt compilerMapOf = RunResult.disabledNoOp := by
    simp [run, he]
  exact ⟨h, by simp [h]⟩

/-- Witness for claim C10 on the disabled, bundle-less sample
configuration. -/
theorem run_disabled_before_config_check_witness :
    cfgDisabledNoBundle.enabled = false ∧ cfgDisabledNoBundle.bundleFilename = none
    ∧ (run cfgDisabledNoBundle [mainAsset] predAll fsAndroidDemo cmDemo
         = RunResult.disabledNoOp
       ∧ run cfgDisabledNoBundle [mainAsset] predAll fsAndroidDemo cmDemo
         ≠ RunResult.configurationError) :=
  ⟨by decide, by decide,
   run_disabled_before_config_check cfgDisabledNoBundle [mainAsset] predAll
     fsAndroidDemo cmDemo (by decide) (by decide)⟩

/-- Claim C8: an asset whose resolved bundle file does not exist produces
exactly the skip event, leaves the filesystem unchanged, and the traces of
the remaining assets are exactly what they are without it. -/
theorem missing_bundle_skips_only (cfg : PluginConfig) (bf : String) (a : Asset)
    (rest : List Asset) (pred : String → Bool) (fileExistsAt : String → Bool)
    (compilerMapOf : String → String)
    (h : fileExistsAt (bundleOutputPath cfg bf a) = false) :
    processAsset cfg bf a fileExistsAt compilerMapOf
      = [Event.skipMissingBundle (bundleOutputPath cfg bf a)]
    ∧ applyEvents fileExistsAt (processAsset cfg bf a fileExistsAt compilerMapOf)
      = fileExistsAt
    ∧ runTraces cfg bf (a :: rest) pred fileExistsAt compilerMapOf
      = (if pred a.name then
          [(a.name, [Event.skipMissingBundle (bundleOutputPath cfg bf a)])]
         else []) ++ runTraces cfg bf rest pred fileExistsAt compilerMapOf := by
  have ht : processAsset cfg bf a fileExistsAt compilerMapOf
      = [Event.skipMissingBundle (bundleOutputPath cfg bf a)] := by
    simp [processAsset, h]
  refine ⟨ht, ?_, ?_⟩
  · rw [ht]
    simp [applyEvents, applyEvent]
  · by_cases hp : pred a.name
    · simp [runTraces, List.filter_cons, hp, ht]
    · simp [runTraces, List.filter_cons, hp]

/-- Witness for claim C8 on the android sample: the second chunk has no
bundle file and is skipped, while the first chunk still runs its full
pipeline. -/
theorem missing_bundle_skips_only_witness :
    fsAndroidDemo (bundleOutputPath cfgAndroid "/out/index.bundle" missingAsset) = false
    ∧ processAsset cfgAndroid "/out/index.bundle" missingAsset fsAndroidDemo cmDemo
        = [Event.skipMissingBundle "/out/chunk2.bundle"]
    ∧ runTraces cfgAndroid "/out/index.bundle" [missingAsset, chunkAsset] predAll
        fsAndroidDemo cmDemo
        = [("chunk2.bundle", [Event.skipMissingBundle "/out/chunk2.bundle"]),
           ("chunk1.bundle",
            [Event.renameMap "/out/chunk1.bundle.map" "/out/chunk1.bundle.packager.map",
             Event.transform "/out/chunk1.bundle" (some "/out/chunk1.bundle.hbc.map"),
             Event.compose "/out/chunk1.bundle.packager.map" "/out/chunk1.bundle.hbc.map"
               "/out/chunk1.bundle.map"])] :=
  ⟨by decide,
   ((missing_bundle_skips_only cfgAndroid "/out/index.bundle" missingAsset [chunkAsset]
      predAll fsAndroidDemo cmDemo (by decide)).1).trans (by decide),
   ((missing_bundle_skips_only cfgAndroid "/out/index.bundle" missingAsset [chunkAsset]
      predAll fsAndroidDemo cmDemo (by decide)).2.2).trans (by decide)⟩

/-- Claim C9: for an asset processed with source maps, the packager-map file
exists right after the rename step and no longer exists after the full
pipeline, the compose step having consumed it. -/
theorem packagerMap_transient (cfg : PluginConfig) (bf : String) (a : Asset)
    (fileExistsAt : String → Bool) (compilerMapOf : String → String)
    (hb : fileExistsAt (bundleOutputPath cfg bf a) = true)
    (hm : fileExistsAt (sourcemapOutputPath cfg bf a) = true) :
    applyEvents fileExistsAt
        ((processAsset cfg bf a fileExistsAt compilerMapOf).take 1)
        (packagerMapPath cfg bf a) = true
    ∧ applyEvents fileExistsAt (processAsset cfg bf a fileExistsAt compilerMapOf)
        (packagerMapPath cfg bf a) = false := by
  have ht : processAsset cfg bf a fileExistsAt compilerMapOf
      = [Event.renameMap (sourcemapOutputPath cfg bf a) (packagerMapPath cfg bf a),
         Event.transform (bundleOutputPath cfg bf a)
           (some (compilerMapOf (bundleOutputPath cfg bf a))),
         Event.compose (packagerMapPath cfg bf a)
           (compilerMapOf (bundleOutputPath cfg bf a)) (sourcemapOutputPath cfg bf a)] := by
    simp [processAsset, hb, hm]
  rw [ht]
  constructor
  · simp [applyEvents, applyEvent]
  · simp [applyEvents, applyEvent]

/-- Witness for claim C9 on the ios sample: the packager map exists after the
rename and is gone after the pipeline. -/
theorem packagerMap_transient_witness :
    fsIosDemo (bundleOutputPath cfgIos "/out/main.jsbundle" chunkAsset) = true
    ∧ fsIosDemo (sourcemapOutputPath cfgIos "/out/main.jsbundle" chunkAsset) = true
    ∧ (applyEvents fsIosDemo
         ((processAsset cfgIos "/out/main.jsbundle" chunkAsset fsIosDemo cmDemo).take 1)
         (packagerMapPath cfgIos "/out/main.jsbundle" chunkAsset) = true
       ∧ applyEvents fsIosDemo
           (processAsset cfgIos "/out/main.jsbundle" chunkAsset fsIosDemo cmDemo)
           (packagerMapPath cfgIos "/out/main.jsbundle" chunkAsset) = false) :=
  ⟨by decide, by decide,
   packagerMap_transient cfgIos "/out/main.jsbundle" chunkAsset fsIosDemo cmDemo
     (by decide) (by decide)⟩

end Repack
